import Mathlib

/-!
Shallow embedding of `monitor.py` (gaming-status-discord): a health monitor
that probes three game-platform services with a retrying check wrapper,
classifies a browser-rendered status page by phrase matching, and posts an
aggregated failure report to a Discord webhook.

Modelling conventions:
- A check function is a pure stream `Nat → Bool × String`: the value at `i`
  is the result `(ok, detail)` of the check's `i`-th invocation.  The retry
  loop walks the stream in order, so the index is the invocation count.
- HTTP I/O is represented by its outcome: `Except String Response`, where
  `.error e` is a raised transport exception with message `e` and `.ok resp`
  is a delivered response.  The response body is abstracted into the two
  views the code reads: `resp.json()` as `Except String Json` (parse error
  or parsed value) and `resp.text` as a plain string.
- Side effects (prints, webhook posts) are reified as event lists.
- Python's `str.lower()` is modelled on ASCII letters, and `in` on strings
  is substring containment over the character list.
-/

/-- ASCII lower-casing of one character, as Python's `str.lower()` acts on
ASCII input. -/
def lowerChar (c : Char) : Char :=
  if 65 ≤ c.toNat && c.toNat ≤ 90 then Char.ofNat (c.toNat + 32) else c

/-- Lower-case a string character by character (ASCII model of `.lower()`). -/
def lowerStr (s : String) : String :=
  ⟨s.data.map lowerChar⟩

/-- Does the haystack start with the needle? -/
def startsWith : List Char → List Char → Bool
  | [], _ => true
  | _ :: _, [] => false
  | n :: ns, h :: hs => n == h && startsWith ns hs

/-- Substring containment over character lists: Python's `needle in haystack`
for strings. -/
def containsSub (needle : List Char) : List Char → Bool
  | [] => needle.isEmpty
  | c :: hs => startsWith needle (c :: hs) || containsSub needle hs

/-- String-level substring containment. -/
def strContains (needle haystack : String) : Bool :=
  containsSub needle.data haystack.data

/-- Number of positions of the haystack at which the needle occurs. -/
def countOcc (needle : List Char) : List Char → Nat
  | [] => 0
  | c :: hs => (if startsWith needle (c :: hs) then 1 else 0) + countOcc needle hs

/-- String-level occurrence count. -/
def countOccStr (needle haystack : String) : Nat :=
  countOcc needle.data haystack.data

/-! ## Configuration constants (monitor.py lines 10-13) -/

/-- `RETRIES = 2`: quick retries within a single run. -/
def RETRIES : Nat := 2

/-- Characters stripped by Python's no-argument `str.strip()` (ASCII
whitespace: space, tab, newline, carriage return, vertical tab, form feed). -/
def isPySpace (c : Char) : Bool :=
  c == ' ' || c == '\t' || c == '\n' || c == '\r' || c.toNat == 11 || c.toNat == 12

/-- Python `str.strip()`: drop leading and trailing whitespace. -/
def pyStrip (s : String) : String :=
  ⟨((s.data.dropWhile isPySpace).reverse.dropWhile isPySpace).reverse⟩

/-- `DISCORD_WEBHOOK = os.environ.get("DISCORD_WEBHOOK", "").strip()`
(monitor.py line 10), as a function of the environment value. -/
def DISCORD_WEBHOOK (env : Option String) : String :=
  pyStrip (env.getD "")

/-! ## Retry wrapper (monitor.py lines 34-46) -/

/-- The loop body of `check_with_retries`: `fuel` remaining iterations of
`for attempt in range(RETRIES + 1)`, `i` the index of the next invocation in
the stream `f`, `lastDetail` the running `last_detail` variable.  Returns
`(ok, detail, invocations performed)`. -/
def retryLoop (f : Nat → Bool × String) (i : Nat) (fuel : Nat)
    (lastDetail : String) : Bool × String × Nat :=
  match fuel with
  | 0 => (false, lastDetail, 0)
  | fuel' + 1 =>
    if (f i).1 then (true, (f i).2, 1)
    else
      let rest := retryLoop f (i + 1) fuel' (f i).2
      (rest.1, rest.2.1, rest.2.2 + 1)

/-- `check_with_retries` generalised over the attempt budget: the source's
loop `for attempt in range(RETRIES + 1)` with the constant `RETRIES` made a
parameter `maxExtra` (the spec's `maxExtraAttempts`), instrumented with the
number of invocations of `check_fn`. -/
def check_with_retriesI (f : Nat → Bool × String) (maxExtra : Nat) :
    Bool × String × Nat :=
  retryLoop f 0 (maxExtra + 1) ""

/-- `check_with_retries(check_fn, name)` instrumented with the invocation
count; `name` is received, as in the source, and never read. -/
def check_with_retriesT (f : Nat → Bool × String) (name : String) :
    Bool × String × Nat :=
  check_with_retriesI f RETRIES

/-- `check_with_retries(check_fn, name) -> (ok, detail)` (monitor.py 34-46). -/
def check_with_retries (f : Nat → Bool × String) (name : String) :
    Bool × String :=
  ((check_with_retriesT f name).1, (check_with_retriesT f name).2.1)

/-! ## HTTP probe and the two Steam checks (monitor.py lines 27-77) -/

/-- A JSON value, as produced by `resp.json()`. -/
inductive Json where
  | null : Json
  | jbool : Bool → Json
  | jnum : Int → Json
  | jstr : String → Json
  | jarr : List Json → Json
  | jobj : List (String × Json) → Json

/-- Python's `key in data` for a parsed JSON value: key membership when
`data` is an object (the only case the claims range over). -/
def Json.hasKey : Json → String → Bool
  | .jobj fields, k => fields.any (fun kv => kv.1 == k)
  | _, _ => false

/-- An HTTP response, abstracted to the views the code reads: the status
code, the result of `resp.json()` (a parse error or a parsed value), and
`resp.text`. -/
structure Response where
  status_code : Nat
  jsonResult : Except String Json
  text : String

/-- `http_get(url) -> (ok, resp, err)` (monitor.py 27-32), as a function of
the transport outcome: an exception message, or a delivered response. -/
def http_get (outcome : Except String Response) :
    Bool × Option Response × String :=
  match outcome with
  | .ok resp => (true, some resp, "")
  | .error e => (false, none, e)

/-- `check_steam_api()` (monitor.py 50-64), as a function of the probe's
outcome for the fixed URL. -/
def check_steam_api (outcome : Except String Response) : Bool × String :=
  let r := http_get outcome
  if !r.1 then (false, "HTTP error: " ++ r.2.2)
  else
    match r.2.1 with
    | none => (false, "HTTP error: " ++ r.2.2)
    | some resp =>
      if resp.status_code ≠ 200 then
        (false, "Status " ++ toString resp.status_code)
      else
        match resp.jsonResult with
        | .error e => (false, "JSON parse error: " ++ e)
        | .ok data =>
          if data.hasKey "servertimestring" || data.hasKey "server_time"
              || data.hasKey "response" then
            (true, "Steam Web API OK")
          else
            (false, "Unexpected JSON structure")

/-- `check_steam_store()` (monitor.py 66-77), as a function of the probe's
outcome for the fixed URL. -/
def check_steam_store (outcome : Except String Response) : Bool × String :=
  let r := http_get outcome
  if !r.1 then (false, "HTTP error: " ++ r.2.2)
  else
    match r.2.1 with
    | none => (false, "HTTP error: " ++ r.2.2)
    | some resp =>
      if resp.status_code ≠ 200 then
        (false, "Status " ++ toString resp.status_code)
      else
        let body := lowerStr resp.text
        if strContains "install steam" body then (true, "Steam Store reachable")
        else (false, "Key text not found")

/-! ## PlayStation check (monitor.py lines 81-128) -/

/-- The healthy phrase list (monitor.py 91-95). -/
def healthy_phrases : List String :=
  ["all services are up and running", "service is running", "no issues reported"]

/-- The bad phrase list (monitor.py 96-102). -/
def bad_phrases : List String :=
  ["under maintenance", "experiencing issues", "partially degraded", "outage",
   "some services are down"]

/-- The classification core of `check_psn_status()` (monitor.py 109-126), as
a function of the rendered page text (`page.text_content("body") or ""`):
lower-case it, report down on any bad phrase, up on any healthy phrase, and
otherwise fall back to counting case-insensitive occurrences of "running"
(the `page.locator("text=/running/i").count()` chips probe, modelled as the
occurrence count in the same rendered text). -/
def check_psn_status (renderedText : String) : Bool × String :=
  let body_text := lowerStr renderedText
  if bad_phrases.any (fun bp => strContains bp body_text) then
    (false, "PSN page shows issues")
  else if healthy_phrases.any (fun hp => strContains hp body_text) then
    (true, "PSN status looks healthy")
  else
    let chips := countOccStr "running" body_text
    if chips > 0 then (true, "PSN components show \x27Running\x27")
    else (false, "Could not confirm healthy status")

/-! ## Notifier and runner (monitor.py lines 15-25 and 132-155) -/

/-- An observable side effect of the notifier: a line on stdout, a line on
stderr, or an attempted webhook POST with its payload `content` string. -/
inductive Event where
  | stdout : String → Event
  | stderr : String → Event
  | httpPost : (url : String) → (content : String) → Event
deriving DecidableEq

/-- Is the event a network call? -/
def Event.isPost : Event → Bool
  | .httpPost _ _ => true
  | _ => false

/-- `send_discord_alert(title, message)` (monitor.py 15-25), as the list of
effects it performs.  `webhook` is the module-level `DISCORD_WEBHOOK` value
and `postOutcome` the outcome of `requests.post(...); r.raise_for_status()`
(`.error e` when either raises, covering network errors and non-2xx
statuses).  The function always returns: failures are printed to stderr. -/
def send_discord_alert (webhook : String) (postOutcome : Except String Unit)
    (title message : String) : List Event :=
  if webhook = "" then
    [Event.stdout "No DISCORD_WEBHOOK set; printing message instead:",
     Event.stdout ("[" ++ title ++ "] " ++ message)]
  else
    Event.httpPost webhook (":rotating_light: **" ++ title ++ "**\n" ++ message) ::
      (match postOutcome with
       | .ok _ => []
       | .error e => [Event.stderr ("Failed to send Discord message: " ++ e)])

namespace Monitor

/-- `main()` (monitor.py 132-155), as a function of the three checks'
invocation streams.  Returns the printed lines in order, and the list of
notifier calls `(title, message)` that `main` makes (at most one). -/
def main (f1 f2 f3 : Nat → Bool × String) :
    List String × List (String × String) :=
  let r1 := check_with_retries f1 "Steam API"
  let fails1 : List String := if r1.1 then [] else ["Steam Web API: " ++ r1.2]
  let r2 := check_with_retries f2 "Steam Store"
  let fails2 : List String := if r2.1 then [] else ["Steam Store: " ++ r2.2]
  let r3 := check_with_retries f3 "PSN Status"
  let fails3 : List String := if r3.1 then [] else ["PSN: " ++ r3.2]
  let failures := fails1 ++ fails2 ++ fails3
  let prints := ["Steam API: " ++ r1.2, "Steam Store: " ++ r2.2, "PSN: " ++ r3.2]
  if failures.isEmpty then
    (prints ++ ["All checks healthy."], [])
  else
    (prints,
     [("Gaming outage detected",
       String.intercalate "\n" (failures.map (fun f => "- " ++ f)))])

end Monitor

/-! ## Theorems -/

/-- If the stream fails on the `k` invocations starting at `i` and succeeds
on the next one, a loop with more than `k` iterations left stops there with
that attempt's detail, after exactly `k + 1` invocations. -/
theorem retryLoop_first_success (f : Nat → Bool × String) (k : Nat) :
    ∀ (i fuel : Nat) (d : String),
      (∀ j, j < k → (f (i + j)).1 = false) → (f (i + k)).1 = true →
      k < fuel → retryLoop f i fuel d = (true, (f (i + k)).2, k + 1) := by
  induction k with
  | zero =>
    intro i fuel d _ hk hfuel
    obtain ⟨fuel', rfl⟩ : ∃ fuel', fuel = fuel' + 1 := ⟨fuel - 1, by omega⟩
    rw [Nat.add_zero] at hk
    simp [retryLoop, hk]
  | succ k ih =>
    intro i fuel d hj hk hfuel
    obtain ⟨fuel', rfl⟩ : ∃ fuel', fuel = fuel' + 1 := ⟨fuel - 1, by omega⟩
    have h0 : (f i).1 = false := by simpa using hj 0 (Nat.succ_pos k)
    have hshift : ∀ j, j < k → (f (i + 1 + j)).1 = false := by
      intro j hjk
      have h := hj (j + 1) (by omega)
      rwa [show i + (j + 1) = i + 1 + j from by omega] at h
    have hk' : (f (i + 1 + k)).1 = true := by
      rwa [show i + (k + 1) = i + 1 + k from by omega] at hk
    have ihr := ih (i + 1) fuel' (f i).2 hshift hk' (by omega)
    simp only [retryLoop, h0, Bool.false_eq_true, if_false, ihr]
    rw [show i + 1 + k = i + (k + 1) from by omega]

/-- Claim C1: if the check function fails on its first `k` invocations and
succeeds on invocation `k + 1`, and `maxExtraAttempts ≥ k`, then the retry
wrapper returns `ok = true` with that attempt's detail after exactly `k + 1`
invocations of the check function, and performs no further invocations. -/
theorem check_with_retries_first_success (f : Nat → Bool × String)
    (k maxExtra : Nat) (hfail : ∀ j, j < k → (f j).1 = false)
    (hsucc : (f k).1 = true) (hle : k ≤ maxExtra) :
    check_with_retriesI f maxExtra = (true, (f k).2, k + 1) := by
  have h := retryLoop_first_success f k 0 (maxExtra + 1) ""
    (by simpa using hfail) (by simpa using hsucc) (by omega)
  simpa [check_with_retriesI] using h

/-- Witness for C1: a check that fails once then succeeds, with
`maxExtraAttempts = 2`, stops after its second invocation. -/
theorem check_with_retries_first_success_witness :
    check_with_retriesI (fun i => (decide (1 ≤ i), "d" ++ toString i)) 2 =
      (true, "d1", 2) := by
  have h := check_with_retries_first_success
    (fun i => (decide (1 ≤ i), "d" ++ toString i)) 1 2
    (by intro j hj; have he : j = 0 := by omega
        subst he; decide)
    (by decide) (by omega)
  simpa using h

/-- Claim C2: if the check function fails on every invocation, the wrapper
(at the source's `RETRIES = 2`) invokes it exactly 3 times and returns
`false` paired with the third invocation's detail. -/
theorem check_with_retries_all_fail (f : Nat → Bool × String) (name : String)
    (hfail : ∀ j, (f j).1 = false) :
    check_with_retriesT f name = (false, (f 2).2, 3) := by
  simp [check_with_retriesT, check_with_retriesI, RETRIES, retryLoop,
    hfail 0, hfail 1, hfail 2]

/-- Witness for C2: an always-failing check is invoked 3 times and the last
detail surfaces. -/
theorem check_with_retries_all_fail_witness :
    check_with_retriesT (fun i => (false, "e" ++ toString i)) "n" =
      (false, "e2", 3) := by
  have h := check_with_retries_all_fail (fun i => (false, "e" ++ toString i))
    "n" (fun _ => rfl)
  simpa using h

/-- Claim C10: the result of the retry wrapper, including its invocation
count, is independent of the `name` argument. -/
theorem check_with_retries_name_independent (f : Nat → Bool × String)
    (n1 n2 : String) :
    check_with_retries f n1 = check_with_retries f n2 ∧
      check_with_retriesT f n1 = check_with_retriesT f n2 :=
  ⟨rfl, rfl⟩

/-- Claim C3: any bad phrase in the lower-cased rendered text makes the PSN
classifier report down, regardless of what else the text contains. -/
theorem check_psn_status_bad_phrase (t : String)
    (hbad : bad_phrases.any (fun bp => strContains bp (lowerStr t)) = true) :
    check_psn_status t = (false, "PSN page shows issues") := by
  simp [check_psn_status, hbad]

/-- Witness for C3: a text with both a bad phrase ("outage") and a healthy
phrase ("no issues reported") is classified down. -/
theorem check_psn_status_bad_phrase_witness :
    bad_phrases.any
        (fun bp => strContains bp
          (lowerStr "Outage in progress, but no issues reported")) = true ∧
      healthy_phrases.any
        (fun hp => strContains hp
          (lowerStr "Outage in progress, but no issues reported")) = true ∧
      check_psn_status "Outage in progress, but no issues reported" =
        (false, "PSN page shows issues") :=
  ⟨by decide, by decide, check_psn_status_bad_phrase _ (by decide)⟩

/-- Claim C4: with neither a bad nor a healthy phrase present, the PSN
classifier reports up with the lower-confidence detail exactly when the
case-insensitive count of "running" is positive, and otherwise reports down
with the could-not-confirm detail. -/
theorem check_psn_status_fallback (t : String)
    (hbad : bad_phrases.any (fun bp => strContains bp (lowerStr t)) = false)
    (hheal : healthy_phrases.any (fun hp => strContains hp (lowerStr t)) = false) :
    check_psn_status t =
      if countOccStr "running" (lowerStr t) > 0 then
        (true, "PSN components show \x27Running\x27")
      else (false, "Could not confirm healthy status") := by
  simp [check_psn_status, hbad, hheal]

/-- Witness for C4: "Running" three times, with no phrase from either list,
is classified up with the lower-confidence detail. -/
theorem check_psn_status_fallback_witness :
    bad_phrases.any
        (fun bp => strContains bp (lowerStr "Running Running Running")) = false ∧
      healthy_phrases.any
        (fun hp => strContains hp (lowerStr "Running Running Running")) = false ∧
      check_psn_status "Running Running Running" =
        (true, "PSN components show \x27Running\x27") :=
  ⟨by decide, by decide,
    (check_psn_status_fallback "Running Running Running"
      (by decide) (by decide)).trans (by decide)⟩

/-- Claim C5: on a 200 response whose body parses as a JSON object, the
Steam API check succeeds exactly when the object has one of the keys
"servertimestring", "server_time", "response"; otherwise it fails with the
unexpected-structure detail. -/
theorem check_steam_api_json_object (resp : Response)
    (kvs : List (String × Json)) (hstatus : resp.status_code = 200)
    (hjson : resp.jsonResult = .ok (.jobj kvs)) :
    check_steam_api (.ok resp) =
      if (Json.jobj kvs).hasKey "servertimestring"
          || (Json.jobj kvs).hasKey "server_time"
          || (Json.jobj kvs).hasKey "response" then
        (true, "Steam Web API OK")
      else (false, "Unexpected JSON structure") := by
  simp [check_steam_api, http_get, hstatus, hjson]

/-- Witness for C5: an object with only the key "response" passes, and an
object with only an unknown key fails with the fixed detail. -/
theorem check_steam_api_json_object_witness :
    check_steam_api (.ok ⟨200, .ok (.jobj [("response", Json.null)]), ""⟩) =
        (true, "Steam Web API OK") ∧
      check_steam_api (.ok ⟨200, .ok (.jobj [("foo", Json.null)]), ""⟩) =
        (false, "Unexpected JSON structure") :=
  ⟨(check_steam_api_json_object ⟨200, .ok (.jobj [("response", Json.null)]), ""⟩
      [("response", Json.null)] rfl rfl).trans (by decide),
   (check_steam_api_json_object ⟨200, .ok (.jobj [("foo", Json.null)]), ""⟩
      [("foo", Json.null)] rfl rfl).trans (by decide)⟩

/-- A needle that the haystack starts with is contained in it. -/
theorem containsSub_of_startsWith (n h : List Char)
    (hs : startsWith n h = true) : containsSub n h = true := by
  cases h with
  | nil =>
    cases n with
    | nil => rfl
    | cons c cs => simp [startsWith] at hs
  | cons c hs' => simp [containsSub, hs]

/-- Every list starts with itself followed by anything. -/
theorem startsWith_append (a b : List Char) : startsWith a (a ++ b) = true := by
  induction a with
  | nil => rfl
  | cons c cs ih => simp [startsWith, ih]

/-- A suffix is contained in the whole list. -/
theorem containsSub_append_right (l n : List Char) :
    containsSub n (l ++ n) = true := by
  induction l with
  | nil =>
    have h := startsWith_append n []
    rw [List.append_nil] at h
    exact containsSub_of_startsWith n n h
  | cons c l' ih => simp [containsSub, ih]

/-- Claim C6: when the HTTP probe raises a transport error, each check that
uses it returns `ok = false` with a detail containing "HTTP error" and the
exception's message, instead of propagating the fault. -/
theorem checks_transport_error (e : String) :
    check_steam_api (.error e) = (false, "HTTP error: " ++ e) ∧
      check_steam_store (.error e) = (false, "HTTP error: " ++ e) ∧
      strContains "HTTP error" ("HTTP error: " ++ e) = true ∧
      strContains e ("HTTP error: " ++ e) = true := by
  obtain ⟨ed⟩ := e
  refine ⟨rfl, rfl, rfl, ?_⟩
  exact containsSub_append_right "HTTP error: ".data ed

/-- Claim C7: the runner calls the notifier exactly once, with the fixed
title and one "- " bullet line per ultimately-failed check joined by
newlines, precisely when some check ultimately failed; when every check
succeeded it prints the healthy message and makes no notifier call. -/
theorem main_notifier_calls (f1 f2 f3 : Nat → Bool × String) :
    (Monitor.main f1 f2 f3).2 =
      (if (check_with_retries f1 "Steam API").1 &&
          (check_with_retries f2 "Steam Store").1 &&
          (check_with_retries f3 "PSN Status").1 then []
       else
         [("Gaming outage detected",
           String.intercalate "\n"
             (((if (check_with_retries f1 "Steam API").1 then []
                else ["Steam Web API: " ++ (check_with_retries f1 "Steam API").2]) ++
               (if (check_with_retries f2 "Steam Store").1 then []
                else ["Steam Store: " ++ (check_with_retries f2 "Steam Store").2]) ++
               (if (check_with_retries f3 "PSN Status").1 then []
                else ["PSN: " ++ (check_with_retries f3 "PSN Status").2])).map
               (fun f => "- " ++ f)))]) ∧
    (Monitor.main f1 f2 f3).1 =
      ["Steam API: " ++ (check_with_retries f1 "Steam API").2,
       "Steam Store: " ++ (check_with_retries f2 "Steam Store").2,
       "PSN: " ++ (check_with_retries f3 "PSN Status").2] ++
      (if (check_with_retries f1 "Steam API").1 &&
          (check_with_retries f2 "Steam Store").1 &&
          (check_with_retries f3 "PSN Status").1 then ["All checks healthy."]
       else []) := by
  cases h1 : (check_with_retries f1 "Steam API").1 <;>
    cases h2 : (check_with_retries f2 "Steam Store").1 <;>
      cases h3 : (check_with_retries f3 "PSN Status").1 <;>
        simp [Monitor.main, h1, h2, h3]

/-- Claim C8: the notifier always returns: with no webhook configured it
only logs the message locally and makes no network call; with a webhook
configured and a failing POST it logs the failure to stderr and still
returns its event list. -/
theorem send_discord_alert_total (webhook title message e : String)
    (po : Except String Unit) :
    (webhook = "" →
      send_discord_alert webhook po title message =
        [Event.stdout "No DISCORD_WEBHOOK set; printing message instead:",
         Event.stdout ("[" ++ title ++ "] " ++ message)] ∧
      (send_discord_alert webhook po title message).all
        (fun ev => ! ev.isPost) = true) ∧
    (webhook ≠ "" →
      send_discord_alert webhook (.error e) title message =
        [Event.httpPost webhook
           (":rotating_light: **" ++ title ++ "**\n" ++ message),
         Event.stderr ("Failed to send Discord message: " ++ e)]) := by
  constructor
  · intro hw
    subst hw
    simp [send_discord_alert, Event.isPost]
  · intro hw
    simp [send_discord_alert, hw]

/-- Witness for C8: the no-webhook path at concrete arguments, and the
configured-webhook failing-POST path at concrete arguments. -/
theorem send_discord_alert_total_witness :
    send_discord_alert "" (.ok ()) "T" "M" =
        [Event.stdout "No DISCORD_WEBHOOK set; printing message instead:",
         Event.stdout "[T] M"] ∧
      send_discord_alert "https://h" (.error "bad") "T" "M" =
        [Event.httpPost "https://h" ":rotating_light: **T**\nM",
         Event.stderr "Failed to send Discord message: bad"] :=
  ⟨((send_discord_alert_total "" "T" "M" "bad" (.ok ())).1 rfl).1,
   (send_discord_alert_total "https://h" "T" "M" "bad"
     (.error "bad")).2 (by decide)⟩

/-- Claim C9: a DISCORD_WEBHOOK environment value that is unset or all
whitespace strips to the empty string, so the notifier takes the local-log
no-op path. -/
theorem webhook_whitespace_unconfigured (env : Option String)
    (po : Except String Unit) (title message : String)
    (hws : ∀ c ∈ (env.getD "").data, isPySpace c = true) :
    DISCORD_WEBHOOK env = "" ∧
    send_discord_alert (DISCORD_WEBHOOK env) po title message =
      [Event.stdout "No DISCORD_WEBHOOK set; printing message instead:",
       Event.stdout ("[" ++ title ++ "] " ++ message)] := by
  have hd : (env.getD "").data.dropWhile isPySpace = [] :=
    List.dropWhile_eq_nil_iff.mpr hws
  have hwh : DISCORD_WEBHOOK env = "" := by
    simp [DISCORD_WEBHOOK, pyStrip, hd]
  exact ⟨hwh, by rw [hwh]; simp [send_discord_alert]⟩

/-- Witness for C9: a value of spaces and a tab is treated as
unconfigured. -/
theorem webhook_whitespace_unconfigured_witness :
    DISCORD_WEBHOOK (some "  \t ") = "" ∧
    send_discord_alert (DISCORD_WEBHOOK (some "  \t ")) (.ok ()) "T" "M" =
      [Event.stdout "No DISCORD_WEBHOOK set; printing message instead:",
       Event.stdout "[T] M"] :=
  webhook_whitespace_unconfigured (some "  \t ") (.ok ()) "T" "M" (by decide)
